import Mathlib

/-!
Verification development for the CineForge / TTV Pipeline browser client
(frontend application in `app.js`, API helper in `frontend/js/api.js`).

The JavaScript code is shallowly embedded: each method of `TTVApp` /
`TTVApi` that the specification talks about becomes a Lean function on an
explicit state, asynchronous settlement and timers become events of small
step relations, and JavaScript numbers used for money become `Rat`.
-/

namespace TTV

/-! ## Jobs

A job as returned by the backend `/jobs` endpoint.  Only the fields the
client logic inspects are carried: `id`, `status` (a plain string such as
"queued", "progress", "finished", "failed") and the `created_at`
timestamp used by `displayJobs` for sorting (modelled as a number). -/

structure Job where
  id : String
  status : String
  created_at : Nat
  deriving DecidableEq, Repr

/-- The `JobStatus.FINISHED` constant used by `displayJobs` when building
`completedJobs`. -/
def FINISHED : String := "finished"

/-- Result of an awaited network call: the promise either fulfils with a
value or rejects with an error message. -/
inductive FetchResult (α : Type)
  | ok (value : α)
  | err (msg : String)
  deriving DecidableEq, Repr

/-! ## Detail Fetch Guard (`showJobDetails`, app.js lines 963-995)

`showJobDetails(jobId)` keeps a single instance property
`this.loadingJobDetails`.  On entry it returns early when that property
already equals the requested id; otherwise it sets the property to the id
and awaits `api.getJobDetails(jobId)`; a `finally` clause resets the
property to `null` whenever a request settles (success or error).

The guard system state records the slot together with the multiset of
detail requests currently in flight (one list entry per outstanding
`getJobDetails` network call). -/

structure GuardState where
  loadingJobDetails : Option String
  inFlight : List String
  deriving DecidableEq, Repr

/-- Events of the guard system: `call id` is an invocation of
`showJobDetails(id)`; `settle id` is the settlement (fulfilment or
rejection) of one outstanding `getJobDetails(id)` call, which runs the
`finally` clause. -/
inductive GuardEvent
  | call (id : String)
  | settle (id : String)
  deriving DecidableEq, Repr

/-- One step of the guard system, following `showJobDetails` literally:
a call is dropped iff the slot currently holds exactly the same id;
otherwise the slot is overwritten with the new id and a network request
is issued.  A settlement removes one outstanding request and runs the
`finally` clause, which sets `loadingJobDetails = null` unconditionally. -/
def guardStep (s : GuardState) : GuardEvent → GuardState
  | .call id =>
    if s.loadingJobDetails = some id then s
    else { loadingJobDetails := some id, inFlight := id :: s.inFlight }
  | .settle id =>
    if id ∈ s.inFlight then
      { loadingJobDetails := none, inFlight := s.inFlight.erase id }
    else s

/-- The guard state at page load: no slot, no outstanding request. -/
def guardInit : GuardState := { loadingJobDetails := none, inFlight := [] }

/-- Run of the guard system on a sequence of events. -/
def runGuard (evs : List GuardEvent) : GuardState :=
  evs.foldl guardStep guardInit

/-! ## The API helper object (`frontend/js/api.js`)

The `TTVApi` constructor performs exactly three property assignments:
`this.baseUrl = baseUrl`, `this.isConnected = false`,
`this.connectionCheckInterval = null` (api.js lines 7-11).  Property
access in JavaScript yields `undefined` for a property that was never
assigned, and template-literal interpolation stringifies `undefined` as
the text "undefined".  We model the object as its property map and
property reads by lookup. -/

inductive JSValue
  | undefinedVal
  | null
  | str (s : String)
  | bool (b : Bool)
  deriving DecidableEq, Repr

/-- Template-literal interpolation of a JavaScript value. -/
def jsTemplate : JSValue → String
  | .undefinedVal => "undefined"
  | .null => "null"
  | .str s => s
  | .bool b => if b then "true" else "false"

/-- Property map of a `TTVApi` instance right after `new TTVApi(baseUrl)`:
the three constructor assignments.  No statement anywhere in `api.js` (or
in the application) ever assigns a property named `baseURL`; later
mutations touch only `isConnected` and `connectionCheckInterval`. -/
def mkTTVApi (baseUrl : String) : List (String × JSValue) :=
  [("baseUrl", .str baseUrl), ("isConnected", .bool false),
   ("connectionCheckInterval", .null)]

/-- JavaScript property read: `undefined` when the property is absent. -/
def getProp (obj : List (String × JSValue)) (key : String) : JSValue :=
  match obj.find? (fun p => p.1 = key) with
  | some p => p.2
  | none => .undefinedVal

/-- The request URL built by `downloadVideo` (api.js line 221):
a template literal interpolating `this.baseURL`. -/
def downloadVideoUrl (api : List (String × JSValue)) (jobId : String) : String :=
  jsTemplate (getProp api "baseURL") ++ "/jobs/" ++ jobId ++ "/download"

/-- The request URL built by `downloadTranscription` (api.js line 165):
a template literal interpolating `this.baseURL`. -/
def downloadTranscriptionUrl (api : List (String × JSValue)) : String :=
  jsTemplate (getProp api "baseURL") ++ "/transcription/download"

/-! ## JobStore and the Adaptive Polling Scheduler
(`startJobPolling` app.js lines 147-174, `stopJobPolling` 179-188,
`updateJobs` 193-201, `displayJobs` 206-228)

The application state carries the pieces of `TTVApp` that the polling
path reads or writes.  `jobs` models the instance property `this.jobs`:
it is read once (line 155, inside `startJobPolling`) and — decisively —
never assigned anywhere in the application, so it is `none` at run time;
we keep it as a field so that this is a provable invariant rather than a
baked-in assumption.  `renderedJobs` models the job-queue DOM contents
written by `displayJobs`, and `completedJobs` the instance property of
the same name. -/

structure AppState where
  jobs : Option (List Job)
  renderedJobs : List Job
  completedJobs : List Job
  warnLog : List String
  errorLog : List String
  deriving DecidableEq, Repr

/-- `TTVApp` state right after the constructor ran: `this.jobs` is not
among the constructor's assignments, `completedJobs` starts empty. -/
def initialApp : AppState :=
  { jobs := none, renderedJobs := [], completedJobs := [],
    warnLog := [], errorLog := [] }

/-- `displayJobs(jobs)` (app.js lines 206-228): on an empty list it
renders the empty-state placeholder and returns early (leaving
`completedJobs` untouched); otherwise it renders the jobs sorted by
`created_at` descending and recomputes `completedJobs`.  It does NOT
assign `this.jobs`. -/
def displayJobs (s : AppState) (jobs : List Job) : AppState :=
  if jobs.isEmpty then
    { s with renderedJobs := [] }
  else
    { s with
      renderedJobs := jobs.mergeSort (fun a b => b.created_at ≤ a.created_at),
      completedJobs := jobs.filter (fun j => j.status = FINISHED) }

/-- `updateJobs()` (app.js lines 193-201): awaits `api.getJobs()` and
displays the result; its own `try`/`catch` turns a fetch rejection into a
`console.warn` entry.  The codomain is `Except` to reflect JavaScript
exception flow — by construction this function always returns normally. -/
def updateJobs (s : AppState) (r : FetchResult (List Job)) :
    Except String AppState :=
  match r with
  | .ok jobs => .ok (displayJobs s jobs)
  | .err msg =>
    .ok { s with warnLog := s.warnLog ++ ["Failed to update jobs: " ++ msg] }

/-- The body of `poll` inside `startJobPolling` (app.js lines 150-170),
run to the point where it arms the next timer: await `updateJobs()`, then
compute `hasActiveJobs` from `this.jobs` (`undefined && _` is falsy) and
arm the timer with 8000/15000 ms; the `catch` arm (20000 ms) fires only
if the `try` block throws.  Returns the new application state and the
delay passed to `setTimeout`. -/
def pollCycle (s : AppState) (r : FetchResult (List Job)) : AppState × Nat :=
  match updateJobs s r with
  | .ok s' =>
    let hasActiveJobs :=
      match s'.jobs with
      | none => false
      | some js => js.any (fun j => j.status = "queued" || j.status = "progress")
    (s', if hasActiveJobs then 8000 else 15000)
  | .error e =>
    ({ s with errorLog := s.errorLog ++ ["Job polling failed: " ++ e] }, 20000)

/-! ### The scheduler as a transition system

`startJobPolling` is invoked from exactly two places: once from `init`
(via `startMonitoring`, app.js line 125) when the page loads, and from
the `setTimeout` callbacks it arms itself (lines 163 and 168).
`stopJobPolling` is invoked at the top of `startJobPolling` and on page
unload.  The scheduler state counts the refreshes currently in flight
(so that overlap is representable) and holds the pending timer, if any,
with its delay. -/

structure SchedState where
  inFlight : Nat
  pollTimeout : Option Nat
  app : AppState
  deriving DecidableEq, Repr

/-- Scheduler events: the in-flight refresh settles (with the fetch
outcome), a pending timer fires (running `startJobPolling` again), or
`stopJobPolling` is called (page unload). -/
inductive SchedEvent
  | settle (r : FetchResult (List Job))
  | timerFire
  | stop

/-- One step of the scheduler.  `settle r` is enabled only when a refresh
is in flight: the cycle finishes `pollCycle` and arms exactly one timer.
`timerFire` is enabled only when a timer is pending: the callback runs
`startJobPolling`, which first calls `stopJobPolling` (clearing the — now
fired — timer handle) and then starts one refresh.  `stop` clears the
pending timer; it cannot recall a network request already issued. -/
def schedStep (s : SchedState) : SchedEvent → Option SchedState
  | .settle r =>
    if s.inFlight = 0 then none
    else
      let out := pollCycle s.app r
      some { inFlight := s.inFlight - 1, pollTimeout := some out.2, app := out.1 }
  | .timerFire =>
    match s.pollTimeout with
    | none => none
    | some _ => some { inFlight := s.inFlight + 1, pollTimeout := none, app := s.app }
  | .stop => some { s with pollTimeout := none }

/-- Scheduler state right after page load: `init`'s single call to
`startJobPolling` has started the initial refresh. -/
def schedInit : SchedState :=
  { inFlight := 1, pollTimeout := none, app := initialApp }

/-- States the scheduler can reach from page load. -/
inductive SchedReachable : SchedState → Prop
  | init : SchedReachable schedInit
  | step {s s' : SchedState} {e : SchedEvent} :
      SchedReachable s → schedStep s e = some s' → SchedReachable s'

/-- Number of pending poll timers in a scheduler state. -/
def pendingTimers (s : SchedState) : Nat :=
  match s.pollTimeout with
  | none => 0
  | some _ => 1

/-! ## Cost Estimation Workflow
(`generateVideo` app.js lines 297-352, `showCostConfirmation` lines
357-463, `saveSettings` lines 555-565)

Money amounts are JavaScript numbers; the client only compares and
defaults them, so `Rat` is a faithful carrier.  `jsOr x d` models the
JavaScript expression `x || d` on a number `x` (`0` is falsy; `NaN` and
`undefined`, the other falsy inputs the code guards against, do not
arise for a stored numeric setting and are outside the model). -/

def jsOr (x d : Rat) : Rat := if x = 0 then d else x

/-- JavaScript `String.prototype.trim()`: strip whitespace from both
ends of the string. -/
def jsTrim (s : String) : String :=
  String.mk
    (((s.data.dropWhile Char.isWhitespace).reverse.dropWhile
        Char.isWhitespace).reverse)

/-- The persisted settings object (constructor, app.js lines 12-17). -/
structure Settings where
  openaiKey : String
  googleProject : String
  videoBackend : String
  maxCostPerVideo : Rat
  deriving DecidableEq, Repr

/-- `saveSettings()` (app.js lines 555-565): reassembles the settings
from the form fields; the budget field goes through
`parseFloat(...) || 10.00`, so an entered `0` is stored as `10.00`. -/
def saveSettings (openaiKey googleProject videoBackend : String)
    (maxCostEntered : Rat) : Settings :=
  { openaiKey := openaiKey, googleProject := googleProject,
    videoBackend := videoBackend,
    maxCostPerVideo := jsOr maxCostEntered 10 }

/-- A cost estimation as returned by `api.estimateJobCost`. -/
structure Estimation where
  total_estimated_cost : Rat
  estimated_segments : Nat
  total_duration : Nat
  cost_per_segment : Rat
  backend : String
  deriving DecidableEq, Repr

/-- The ways the user can leave the cost-confirmation modal
(`showCostConfirmation`, app.js lines 439-463): the confirm button, the
cancel button, the close control, or a click on the background overlay. -/
inductive ConfirmAction
  | clickConfirm
  | clickCancel
  | clickClose
  | backgroundClick
  deriving DecidableEq, Repr

/-- `showCostConfirmation(estimation)` resolves its promise with `true`
only from the confirm button's listener; the cancel button, the close
control and the background-click listener all resolve `false` (app.js
lines 441-463). -/
def showCostConfirmation : ConfirmAction → Bool
  | .clickConfirm => true
  | .clickCancel => false
  | .clickClose => false
  | .backgroundClick => false

/-- The user-visible notifications `generateVideo` can produce, kept as
data (the rendered message strings interpolate these values via
`toFixed(2)` templates). -/
inductive Notice
  | emptyPrompt
  | budgetExceeded (cost cap : Rat)
  | jobCreated
  | failedCreate (msg : String)
  deriving DecidableEq, Repr

/-- Severity class passed to `showNotification` for each notice. -/
def Notice.kind : Notice → String
  | .emptyPrompt => "error"
  | .budgetExceeded _ _ => "error"
  | .jobCreated => "success"
  | .failedCreate _ => "error"

/-- Observable effects of one `generateVideo()` run. -/
structure GenEffects where
  notices : List Notice
  estimateCalls : Nat
  confirmShown : Bool
  createCalls : Nat
  promptCleared : Bool
  titleCleared : Bool
  immediateRefresh : Bool
  deriving DecidableEq, Repr

/-- `generateVideo()` (app.js lines 297-352).  Parameters supply the DOM
input values and the outcomes of the awaited calls: the estimate request,
the user's way out of the confirmation modal, and the create request.
Effect trace, following the source line by line:
empty trimmed prompt → error notice, nothing else (line 303);
estimate rejection → caught at line 349 with a `Failed to create job:`
error notice; budget gate (lines 315-324): with
`maxCost = settings.maxCostPerVideo || 10.00`, when `maxCost > 0` and the
estimated total exceeds it, an error notice and an early return — the
confirmation modal is never built; otherwise the modal is shown, and a
non-confirmed resolution returns with no further effect (lines 328-331);
on confirmation `api.createJob` is called once; its fulfilment clears
both inputs and fires one un-awaited `this.updateJobs()` (lines 336-347),
its rejection is caught at line 349. -/
def generateVideo (promptRaw titleRaw : String) (settings : Settings)
    (est : FetchResult Estimation) (action : ConfirmAction)
    (createRes : FetchResult Job) : GenEffects :=
  let prompt := jsTrim promptRaw
  let _title := jsTrim titleRaw
  if prompt = "" then
    { notices := [.emptyPrompt], estimateCalls := 0, confirmShown := false,
      createCalls := 0, promptCleared := false, titleCleared := false,
      immediateRefresh := false }
  else
    match est with
    | .err msg =>
      { notices := [.failedCreate msg], estimateCalls := 1,
        confirmShown := false, createCalls := 0, promptCleared := false,
        titleCleared := false, immediateRefresh := false }
    | .ok e =>
      let maxCost := jsOr settings.maxCostPerVideo 10
      if 0 < maxCost ∧ maxCost < e.total_estimated_cost then
        { notices := [.budgetExceeded e.total_estimated_cost maxCost],
          estimateCalls := 1, confirmShown := false, createCalls := 0,
          promptCleared := false, titleCleared := false,
          immediateRefresh := false }
      else if showCostConfirmation action then
        match createRes with
        | .ok _ =>
          { notices := [.jobCreated], estimateCalls := 1,
            confirmShown := true, createCalls := 1, promptCleared := true,
            titleCleared := true, immediateRefresh := true }
        | .err msg =>
          { notices := [.failedCreate msg], estimateCalls := 1,
            confirmShown := true, createCalls := 1, promptCleared := false,
            titleCleared := false, immediateRefresh := false }
      else
        { notices := [], estimateCalls := 1, confirmShown := true,
          createCalls := 0, promptCleared := false, titleCleared := false,
          immediateRefresh := false }

/-! ## Concrete inputs used by closed evaluations -/

/-- A job the backend reports as queued. -/
def queuedJob : Job := { id := "j1", status := "queued", created_at := 0 }

/-- A plain job value for workflow runs. -/
def dummyJob : Job := { id := "job-1", status := "queued", created_at := 5 }

/-- Settings with the default 10.00 budget cap. -/
def capTenSettings : Settings :=
  { openaiKey := "", googleProject := "", videoBackend := "google_veo",
    maxCostPerVideo := 10 }

/-- Settings in which the user configured a budget cap of 0. -/
def zeroCapSettings : Settings :=
  { openaiKey := "", googleProject := "", videoBackend := "google_veo",
    maxCostPerVideo := 0 }

/-- An estimate whose total cost is 12.00. -/
def estimation12 : Estimation :=
  { total_estimated_cost := 12, estimated_segments := 3, total_duration := 15,
    cost_per_segment := 4, backend := "google_veo" }

/-- An estimate whose total cost is 5.00. -/
def estimation5 : Estimation :=
  { total_estimated_cost := 5, estimated_segments := 1, total_duration := 5,
    cost_per_segment := 5, backend := "google_veo" }

/-! ## Theorems -/

/-- C10: `downloadVideo` and `downloadTranscription` interpolate
`this.baseURL`, a property no statement ever assigns (the constructor
assigns `this.baseUrl`), so for every configured base URL and every job
id the produced URLs start with the text "undefined" in place of the
base and do not depend on the configured base URL at all. -/
theorem C10_download_urls_use_unassigned_baseURL
    (baseUrl otherBase jobId : String) :
    downloadVideoUrl (mkTTVApi baseUrl) jobId =
      "undefined/jobs/" ++ jobId ++ "/download" ∧
    downloadTranscriptionUrl (mkTTVApi baseUrl) =
      "undefined/transcription/download" ∧
    downloadVideoUrl (mkTTVApi baseUrl) jobId =
      downloadVideoUrl (mkTTVApi otherBase) jobId := by
  refine ⟨?_, rfl, rfl⟩
  show ("undefined" ++ "/jobs/" ++ jobId ++ "/download" : String) = _
  rw [show ("undefined" ++ "/jobs/" : String) = "undefined/jobs/" from rfl]

/-- C1: evaluation of the poll cycle.  The claim says a successful
refresh with a queued job schedules the next cycle after 8000 ms and a
failed refresh after 20000 ms; the code schedules 15000 ms in both
cases, because `hasActiveJobs` reads `this.jobs`, which nothing ever
assigns (conjunct 4: no poll cycle writes it; it starts out absent), and
because `updateJobs` swallows the fetch rejection (conjunct 3: it always
returns normally), leaving the 20000 ms `catch` arm dead.  Conjunct 5:
from any state with `jobs` unassigned, every settlement schedules
15000 ms. -/
theorem C1_poll_always_schedules_fifteen_seconds :
    (pollCycle initialApp (.ok [queuedJob])).2 = 15000 ∧
    (pollCycle initialApp (.err "NetworkError")).2 = 15000 ∧
    (∀ (s : AppState) (r : FetchResult (List Job)), ∃ s',
        updateJobs s r = .ok s') ∧
    (∀ (s : AppState) (r : FetchResult (List Job)),
        (pollCycle s r).1.jobs = s.jobs) ∧
    (∀ (s : AppState) (r : FetchResult (List Job)),
        (pollCycle { s with jobs := none } r).2 = 15000) := by
  refine ⟨rfl, rfl, ?_, ?_, ?_⟩
  · intro s r
    cases r with
    | ok jobs => exact ⟨_, rfl⟩
    | err msg => exact ⟨_, rfl⟩
  · intro s r
    cases r with
    | ok jobs =>
      show (displayJobs s jobs).jobs = s.jobs
      unfold displayJobs
      split <;> rfl
    | err msg => rfl
  · intro s r
    cases r with
    | ok jobs =>
      have h : (displayJobs { s with jobs := none } jobs).jobs = none := by
        unfold displayJobs
        split <;> rfl
      simp [pollCycle, updateJobs, h]
    | err msg => rfl

/-- C9: a failed JobStore refresh is only logged.  `updateJobs` on a
rejected fetch returns normally (`.ok`, so the failure cannot interrupt
the caller) with a state identical to the old one except for the
appended `console.warn` entry — in particular the rendered job snapshot,
`completedJobs` and `jobs` are untouched. -/
theorem C9_refresh_failure_only_logged (s : AppState) (msg : String) :
    updateJobs s (.err msg) =
      .ok { s with warnLog := s.warnLog ++ ["Failed to update jobs: " ++ msg] } :=
  rfl

/-- Helper: a run of calls that all target the id currently held in the
slot leaves the guard state unchanged (each call hits the early return). -/
theorem foldl_calls_held_id (a : String) (evs : List GuardEvent)
    (h : ∀ e ∈ evs, e = GuardEvent.call a) (s : GuardState)
    (hs : s.loadingJobDetails = some a) :
    evs.foldl guardStep s = s := by
  induction evs with
  | nil => rfl
  | cons e rest ih =>
    have he : e = GuardEvent.call a := h e (by simp)
    subst he
    have hstep : guardStep s (.call a) = s := by
      unfold guardStep
      rw [hs]
      simp
    rw [List.foldl_cons, hstep]
    exact ih fun e' hm => h e' (by simp [hm])

/-- C2 counterexample: the claimed invariant — never two simultaneously
in-flight detail requests for the same job id, under any interleaving —
is false.  In the run `call "A"; call "B"; call "A"` the call for "B"
overwrites the single guard slot, so the third call is not dropped and
two requests for "A" are in flight at once. -/
theorem C2_counterexample_two_inflight_for_same_id :
    ¬ ∀ (evs : List GuardEvent) (id : String),
        (runGuard evs).inFlight.count id ≤ 1 := by
  intro h
  exact absurd (h [.call "A", .call "B", .call "A"] "A") (by decide)

/-- C2 (amended): the guard is a single slot holding the most recently
started id, not a per-id marker.  While the slot holds id `a` — in
particular throughout any run of further calls for `a` with no
intervening call for a different id and no settlement — repeated
`fetchDetails(a)` calls are dropped, so exactly one request for `a` is in
flight; and a call for a different id `b` does proceed (issuing its own
request), but it overwrites the slot rather than leaving `a`'s guard in
place, after which a duplicate call for `a` would no longer be dropped. -/
theorem C2_single_slot_guard (a b : String) (evs : List GuardEvent)
    (h : ∀ e ∈ evs, e = GuardEvent.call a) (hab : a ≠ b) :
    (runGuard (.call a :: evs)).inFlight.count a = 1 ∧
    guardStep (runGuard (.call a :: evs)) (.call b) =
      { loadingJobDetails := some b,
        inFlight := b :: (runGuard (.call a :: evs)).inFlight } := by
  have h0 : runGuard (.call a :: evs) =
      { loadingJobDetails := some a, inFlight := [a] } := by
    unfold runGuard
    rw [List.foldl_cons]
    have h1 : guardStep guardInit (.call a) =
        { loadingJobDetails := some a, inFlight := [a] } := by
      unfold guardStep guardInit
      simp
    rw [h1]
    exact foldl_calls_held_id a evs h _ rfl
  rw [h0]
  refine ⟨by simp, ?_⟩
  unfold guardStep
  simp [hab]

/-- C2 witness: the amended theorem applied to ids "A", "B" and the
one-event run `[call "A"]`. -/
theorem C2_single_slot_guard_witness :
    (∀ e ∈ ([.call "A"] : List GuardEvent), e = GuardEvent.call "A") ∧
    ("A" : String) ≠ "B" ∧
    ((runGuard (.call "A" :: [.call "A"])).inFlight.count "A" = 1 ∧
     guardStep (runGuard (.call "A" :: [.call "A"])) (.call "B") =
       { loadingJobDetails := some "B",
         inFlight := "B" :: (runGuard (.call "A" :: [.call "A"])).inFlight }) :=
  ⟨by decide, by decide,
   C2_single_slot_guard "A" "B" [.call "A"] (by decide) (by decide)⟩

/-- C8: settling a detail request (the `finally` clause) clears the
guard slot unconditionally and removes the request from the in-flight
multiset; afterwards a call for any id is not dropped — it issues a
fresh request — so no id is ever permanently locked out. -/
theorem C8_settle_clears_guard (s : GuardState) (id : String)
    (h : id ∈ s.inFlight) :
    guardStep s (.settle id) =
      { loadingJobDetails := none, inFlight := s.inFlight.erase id } ∧
    ∀ j : String,
      guardStep (guardStep s (.settle id)) (.call j) =
        { loadingJobDetails := some j,
          inFlight := j :: s.inFlight.erase id } := by
  have h1 : guardStep s (.settle id) =
      { loadingJobDetails := none, inFlight := s.inFlight.erase id } := by
    unfold guardStep
    simp [h]
  refine ⟨h1, fun j => ?_⟩
  rw [h1]
  unfold guardStep
  simp

/-- C8 witness: the theorem applied to the state in which one request
for "A" is in flight. -/
theorem C8_settle_clears_guard_witness :
    "A" ∈ (GuardState.mk (some "A") ["A"]).inFlight ∧
    (guardStep (GuardState.mk (some "A") ["A"]) (.settle "A") =
      { loadingJobDetails := none, inFlight := (["A"] : List String).erase "A" } ∧
     ∀ j : String,
       guardStep (guardStep (GuardState.mk (some "A") ["A"]) (.settle "A")) (.call j) =
         { loadingJobDetails := some j,
           inFlight := j :: (["A"] : List String).erase "A" }) :=
  ⟨by decide, C8_settle_clears_guard ⟨some "A", ["A"]⟩ "A" (by decide)⟩

/-- C3: with a positive configured budget cap, an estimate whose total
cost exceeds the cap aborts the workflow at the budget gate: exactly the
error notice is produced (its severity class is "error"), the
confirmation modal is never shown, and no job-creation call is issued. -/
theorem C3_budget_gate_aborts (promptRaw titleRaw : String)
    (settings : Settings) (e : Estimation) (action : ConfirmAction)
    (createRes : FetchResult Job)
    (hp : jsTrim promptRaw ≠ "")
    (hcap : 0 < settings.maxCostPerVideo)
    (hover : settings.maxCostPerVideo < e.total_estimated_cost) :
    generateVideo promptRaw titleRaw settings (.ok e) action createRes =
      { notices := [.budgetExceeded e.total_estimated_cost
          settings.maxCostPerVideo],
        estimateCalls := 1, confirmShown := false, createCalls := 0,
        promptCleared := false, titleCleared := false,
        immediateRefresh := false } ∧
    Notice.kind (.budgetExceeded e.total_estimated_cost
      settings.maxCostPerVideo) = "error" := by
  have hor : jsOr settings.maxCostPerVideo 10 = settings.maxCostPerVideo := by
    unfold jsOr
    exact if_neg hcap.ne'
  refine ⟨?_, rfl⟩
  simp only [generateVideo, hor]
  rw [if_neg hp, if_pos ⟨hcap, hover⟩]

/-- C3 witness: cap 10.00, estimated total 12.00, prompt "p". -/
theorem C3_budget_gate_aborts_witness :
    jsTrim "p" ≠ "" ∧ 0 < capTenSettings.maxCostPerVideo ∧
    capTenSettings.maxCostPerVideo < estimation12.total_estimated_cost ∧
    (generateVideo "p" "" capTenSettings (.ok estimation12) .clickConfirm
        (.ok dummyJob) =
      { notices := [.budgetExceeded estimation12.total_estimated_cost
          capTenSettings.maxCostPerVideo],
        estimateCalls := 1, confirmShown := false, createCalls := 0,
        promptCleared := false, titleCleared := false,
        immediateRefresh := false } ∧
     Notice.kind (.budgetExceeded estimation12.total_estimated_cost
       capTenSettings.maxCostPerVideo) = "error") :=
  ⟨by decide, by decide, by decide,
   C3_budget_gate_aborts "p" "" capTenSettings estimation12 .clickConfirm
     (.ok dummyJob) (by decide) (by decide) (by decide)⟩

/-- C4: every way out of the confirmation modal other than the confirm
button resolves `showCostConfirmation` to `false`, and a run of
`generateVideo` with any such action issues no job-creation call and
changes no workflow state: inputs are not cleared and no out-of-band
refresh is fired — whatever the estimate outcome was. -/
theorem C4_cancellation_creates_nothing (promptRaw titleRaw : String)
    (settings : Settings) (est : FetchResult Estimation)
    (action : ConfirmAction) (createRes : FetchResult Job)
    (hact : action ≠ ConfirmAction.clickConfirm) :
    showCostConfirmation action = false ∧
    (generateVideo promptRaw titleRaw settings est action createRes).createCalls = 0 ∧
    (generateVideo promptRaw titleRaw settings est action createRes).promptCleared = false ∧
    (generateVideo promptRaw titleRaw settings est action createRes).titleCleared = false ∧
    (generateVideo promptRaw titleRaw settings est action createRes).immediateRefresh = false := by
  have hconf : showCostConfirmation action = false := by
    cases action with
    | clickConfirm => exact absurd rfl hact
    | clickCancel => rfl
    | clickClose => rfl
    | backgroundClick => rfl
  have hrun : ∀ r : GenEffects,
      r = generateVideo promptRaw titleRaw settings est action createRes →
      r.createCalls = 0 ∧ r.promptCleared = false ∧ r.titleCleared = false ∧
        r.immediateRefresh = false := by
    intro r hr
    simp only [generateVideo, hconf] at hr
    rw [hr]
    split
    · exact ⟨rfl, rfl, rfl, rfl⟩
    · split
      · exact ⟨rfl, rfl, rfl, rfl⟩
      · split
        · exact ⟨rfl, rfl, rfl, rfl⟩
        · exact ⟨rfl, rfl, rfl, rfl⟩
  exact ⟨hconf, hrun _ rfl⟩

/-- C4 witness: the cancel button, with an estimate of 5.00 under the
10.00 cap. -/
theorem C4_cancellation_creates_nothing_witness :
    ConfirmAction.clickCancel ≠ ConfirmAction.clickConfirm ∧
    (showCostConfirmation .clickCancel = false ∧
     (generateVideo "p" "" capTenSettings (.ok estimation5) .clickCancel
        (.ok dummyJob)).createCalls = 0 ∧
     (generateVideo "p" "" capTenSettings (.ok estimation5) .clickCancel
        (.ok dummyJob)).promptCleared = false ∧
     (generateVideo "p" "" capTenSettings (.ok estimation5) .clickCancel
        (.ok dummyJob)).titleCleared = false ∧
     (generateVideo "p" "" capTenSettings (.ok estimation5) .clickCancel
        (.ok dummyJob)).immediateRefresh = false) :=
  ⟨by decide,
   C4_cancellation_creates_nothing "p" "" capTenSettings (.ok estimation5)
     .clickCancel (.ok dummyJob) (by decide)⟩

/-- C6 counterexample: with a configured cap of 0 the gate still fires —
the estimate of 12.00 is aborted at the budget gate (no confirmation
modal) because `maxCostPerVideo || 10.00` turns the configured 0 into
the default cap 10.00.  The claim says a cap of 0 disables the gate. -/
theorem C6_counterexample_zero_cap_still_aborts :
    (generateVideo "p" "" zeroCapSettings (.ok estimation12) .clickConfirm
        (.ok dummyJob)).confirmShown = false ∧
    (generateVideo "p" "" zeroCapSettings (.ok estimation12) .clickConfirm
        (.ok dummyJob)).notices = [.budgetExceeded 12 10] := by
  decide

/-- C6 (amended): a configured cap of 0 does not disable the budget
gate; it is replaced by the default 10.00 — a workflow run under cap 0
behaves exactly as under cap 10.00, and `saveSettings` likewise stores
10.00 when 0 is entered, so the gate always runs with a positive
effective cap. -/
theorem C6_zero_cap_behaves_as_default (promptRaw titleRaw k g b : String)
    (s : Settings) (hs : s.maxCostPerVideo = 0)
    (est : FetchResult Estimation) (action : ConfirmAction)
    (createRes : FetchResult Job) :
    generateVideo promptRaw titleRaw s est action createRes =
      generateVideo promptRaw titleRaw { s with maxCostPerVideo := 10 }
        est action createRes ∧
    (saveSettings k g b 0).maxCostPerVideo = 10 := by
  have h1 : jsOr s.maxCostPerVideo 10 = 10 := by
    rw [hs]
    unfold jsOr
    simp
  have h2 : jsOr ({ s with maxCostPerVideo := (10 : Rat) }).maxCostPerVideo 10
      = 10 := by
    show jsOr (10 : Rat) 10 = 10
    unfold jsOr
    norm_num
  constructor
  · simp only [generateVideo, h1, h2]
  · show jsOr 0 10 = 10
    unfold jsOr
    simp

/-- C6 witness: the amended theorem applied to the zero-cap settings. -/
theorem C6_zero_cap_behaves_as_default_witness :
    zeroCapSettings.maxCostPerVideo = 0 ∧
    (generateVideo "p" "" zeroCapSettings (.ok estimation12) .clickConfirm
        (.ok dummyJob) =
      generateVideo "p" "" { zeroCapSettings with maxCostPerVideo := 10 }
        (.ok estimation12) .clickConfirm (.ok dummyJob) ∧
     (saveSettings "" "" "google_veo" 0).maxCostPerVideo = 10) :=
  ⟨by decide,
   C6_zero_cap_behaves_as_default "p" "" "" "" "google_veo" zeroCapSettings
     (by decide) (.ok estimation12) .clickConfirm (.ok dummyJob)⟩

/-- C7: when the user confirms, `api.createJob` is called exactly once,
and if the creation fulfils, both inputs are cleared and the one
un-awaited immediate `updateJobs()` refresh is fired. -/
theorem C7_confirm_creates_exactly_once (promptRaw titleRaw : String)
    (settings : Settings) (e : Estimation) (createRes : FetchResult Job)
    (hp : jsTrim promptRaw ≠ "")
    (hgate : ¬ (0 < jsOr settings.maxCostPerVideo 10 ∧
        jsOr settings.maxCostPerVideo 10 < e.total_estimated_cost)) :
    (generateVideo promptRaw titleRaw settings (.ok e) .clickConfirm
        createRes).createCalls = 1 ∧
    ∀ j : Job, createRes = .ok j →
      (generateVideo promptRaw titleRaw settings (.ok e) .clickConfirm
          createRes).promptCleared = true ∧
      (generateVideo promptRaw titleRaw settings (.ok e) .clickConfirm
          createRes).titleCleared = true ∧
      (generateVideo promptRaw titleRaw settings (.ok e) .clickConfirm
          createRes).immediateRefresh = true := by
  have hrun : ∀ r : GenEffects,
      r = generateVideo promptRaw titleRaw settings (.ok e) .clickConfirm
        createRes →
      r.createCalls = 1 ∧ (∀ j : Job, createRes = .ok j →
        r.promptCleared = true ∧ r.titleCleared = true ∧
          r.immediateRefresh = true) := by
    intro r hr
    simp only [generateVideo] at hr
    rw [if_neg hp, if_neg hgate] at hr
    simp only [showCostConfirmation, if_true] at hr
    cases createRes with
    | ok j =>
      rw [hr]
      exact ⟨rfl, fun j' hj => ⟨rfl, rfl, rfl⟩⟩
    | err msg =>
      rw [hr]
      exact ⟨rfl, fun j' hj => FetchResult.noConfusion hj⟩
  exact hrun _ rfl

/-- C7 witness: estimate 5.00 under cap 10.00, confirmed, creation
fulfils. -/
theorem C7_confirm_creates_exactly_once_witness :
    jsTrim "p" ≠ "" ∧
    ¬ (0 < jsOr capTenSettings.maxCostPerVideo 10 ∧
        jsOr capTenSettings.maxCostPerVideo 10 <
          estimation5.total_estimated_cost) ∧
    ((generateVideo "p" "" capTenSettings (.ok estimation5) .clickConfirm
        (.ok dummyJob)).createCalls = 1 ∧
     ∀ j : Job, (FetchResult.ok dummyJob : FetchResult Job) = .ok j →
       (generateVideo "p" "" capTenSettings (.ok estimation5) .clickConfirm
           (.ok dummyJob)).promptCleared = true ∧
       (generateVideo "p" "" capTenSettings (.ok estimation5) .clickConfirm
           (.ok dummyJob)).titleCleared = true ∧
       (generateVideo "p" "" capTenSettings (.ok estimation5) .clickConfirm
           (.ok dummyJob)).immediateRefresh = true) :=
  ⟨by decide, by decide,
   C7_confirm_creates_exactly_once "p" "" capTenSettings estimation5
     (.ok dummyJob) (by decide) (by decide)⟩

/-- Helper: the inductive scheduler invariant — in every reachable
state, the in-flight refreshes and the pending timers together number at
most one. -/
theorem schedInvariant (s : SchedState) (h : SchedReachable s) :
    s.inFlight + pendingTimers s ≤ 1 := by
  induction h with
  | init => decide
  | @step s s' e hr hstep ih =>
    cases e with
    | settle r =>
      simp only [schedStep] at hstep
      by_cases h0 : s.inFlight = 0
      · rw [if_pos h0] at hstep
        cases hstep
      · rw [if_neg h0] at hstep
        injection hstep with hstep
        subst hstep
        have hle : s.inFlight ≤ 1 := le_trans (Nat.le_add_right _ _) ih
        simp only [pendingTimers]
        omega
    | timerFire =>
      simp only [schedStep] at hstep
      cases hpt : s.pollTimeout with
      | none =>
        rw [hpt] at hstep
        cases hstep
      | some d =>
        rw [hpt] at hstep
        injection hstep with hstep
        subst hstep
        have ht : pendingTimers s = 1 := by
          simp [pendingTimers, hpt]
        simp only [pendingTimers]
        omega
    | stop =>
      simp only [schedStep] at hstep
      injection hstep with hstep
      subst hstep
      simp only [pendingTimers]
      omega

/-- C5: single-flight invariant of the Adaptive Polling Scheduler.  In
every state reachable from page load there is at most one
Scheduler-driven refresh in flight and at most one pending poll timer —
indeed never one of each at once, so poll cycles cannot overlap: a cycle
arms its successor timer only when its refresh settles, and the
restarting `startJobPolling` first clears any pending timer. -/
theorem C5_scheduler_single_flight (s : SchedState)
    (h : SchedReachable s) :
    s.inFlight ≤ 1 ∧ pendingTimers s ≤ 1 ∧
      s.inFlight + pendingTimers s ≤ 1 := by
  have hsum := schedInvariant s h
  omega

/-- C5 witness: the theorem applied to the page-load state. -/
theorem C5_scheduler_single_flight_witness :
    SchedReachable schedInit ∧
    (schedInit.inFlight ≤ 1 ∧ pendingTimers schedInit ≤ 1 ∧
      schedInit.inFlight + pendingTimers schedInit ≤ 1) :=
  ⟨SchedReachable.init,
   C5_scheduler_single_flight schedInit SchedReachable.init⟩

end TTV
